import Mathlib

/-!
Verification of the ChemDesc descriptor library (`chemdesc/descriptors.py`)
against its natural-language specification.

The Python code is shallowly embedded.  Numeric vectors (numpy float arrays)
are modelled as `List ℚ`: no claim depends on floating-point rounding, only on
lengths, zero entries and integer counts.  External collaborators (the RDKit
SMILES parser/canonicalizer, the geometry backends, the ASE xyz reader and the
DScribe descriptor builders) are passed in as function-valued environments; a
Python call that may raise is modelled with an `Option`/`Except` result where
`none`/`.error` stands for the raised exception.  joblib `Memory.cache` of a
deterministic function is modelled as the function itself; for the idempotence
claim the cache stores are additionally threaded explicitly.
-/

set_option autoImplicit false

namespace ChemDesc

/-- Descriptor vectors: rows of the output matrix. -/
abbrev Vec := List ℚ

/-- `np.zeros((n,))`. -/
def npZeros (n : Nat) : Vec := List.replicate n 0

/-- numpy row assignment `matrix[i] = row` into a matrix whose rows have
length `rowSize`: succeeds when the lengths agree, broadcasts a length-1
row, raises (`none`) otherwise. -/
def npSetRow (rowSize : Nat) (row : Vec) : Option Vec :=
  if row.length = rowSize then some row
  else if row.length = 1 then some (List.replicate rowSize row.headI)
  else none

/-- numpy `v[i] += 1`: raises IndexError (`none`) when `i` is out of bounds
(the indices produced by the code are never negative). -/
def npIncr (v : Vec) (i : Nat) : Option Vec :=
  if i < v.length then some (v.set i (v.getD i 0 + 1)) else none

/-- numpy slice assignment `base[:len(v)] = v`: writes `v` over the first
`len(v)` entries of `base`; raises (`none`) when `v` is longer than `base`. -/
def npAssignSlice (base v : Vec) : Option Vec :=
  if v.length ≤ base.length then some (v ++ base.drop v.length) else none

/-- Lookup in an association list modelling a Python `dict`. -/
def dictLookup {κ : Type} {ν : Type} [DecidableEq κ] : List (κ × ν) → κ → Option ν
  | [], _ => none
  | (k, v) :: rest, q => if q = k then some v else dictLookup rest q

/-- Evaluating a fallible computation on every element of a list, propagating
the first raised exception — the behaviour of the `joblib.Parallel` generator
in `Descriptor.transform`, which materialises every row result and lets a
worker's exception abort the whole call. -/
def mapExcept {α β : Type} (f : α → Except String β) : List α → Except String (List β)
  | [] => .ok []
  | a :: rest =>
    match f a with
    | .error e => .error e
    | .ok b =>
      match mapExcept f rest with
      | .error e => .error e
      | .ok bs => .ok (b :: bs)

/-- Applying a fallible operation to every element, `none` when one raises. -/
def mapOption {α β : Type} (f : α → Option β) : List α → Option (List β)
  | [] => some []
  | a :: rest =>
    match f a with
    | none => none
    | some b =>
      match mapOption f rest with
      | none => none
      | some bs => some (b :: bs)

/-!
## External collaborators

`ChemEnv` packages the external functions `Descriptor.compute_geometry`
calls, for one configured `Descriptor` instance (the geometry-method
parameters, including the `ff="UFF"` argument added for `rdkit_uff`, are
fixed per instance and absorbed into `geomFun`).
-/

/-- The external functions used by `Descriptor.compute_geometry`.
`molFromSmiles` is RDKit's `MolFromSmiles`, which returns `None` (`none`) on a
SMILES it cannot parse; `molToSmiles` is `MolToSmiles` on a parsed molecule;
`geomFun` is the (joblib-cached) geometry backend returning an xyz string and
a success flag, `none` when it raises; `readAse` is `ase.io.read`, `none`
when it raises. -/
structure ChemEnv (Mol Geom : Type) where
  molFromSmiles : String → Option Mol
  molToSmiles : Mol → String
  geomFun : String → Option (String × Bool)
  readAse : String → Option Geom

/-- `Descriptor.compute_geometry`.  The canonicalization
`smiles = MolToSmiles(MolFromSmiles(smiles))` happens BEFORE the
`try` block in the source: when `MolFromSmiles` returns `None`,
`MolToSmiles(None)` raises and the exception propagates out of
`compute_geometry` (modelled as `.error`).  Everything inside the `try`
block is caught and converted to `(None, False)`. -/
def Descriptor.compute_geometry {Mol Geom : Type} (env : ChemEnv Mol Geom)
    (smiles : String) : Except String (Option Geom × Bool) :=
  match env.molFromSmiles smiles with
  | none => .error "MolToSmiles raised: argument is None"
  | some mol =>
    match env.geomFun (env.molToSmiles mol) with
    | none => .ok (none, false)
    | some (xyz, success) =>
      if success then
        match env.readAse xyz with
        | some atoms => .ok (some atoms, true)
        | none => .ok (none, false)
      else
        .ok (none, false)

/-- `Descriptor.transform` (the parallel batch driver): every row result is
computed (an exception in any row propagates), then a zero matrix of shape
`(len(X), rowSize)` and an all-`False` success vector are allocated and each
index `i` of `0..len(X)-1` is overwritten, in order, with row `i`'s result —
so the loop is equivalent to mapping the row assignment over the results. -/
def Descriptor.transform (rowSize : Nat)
    (transform_row : String → Except String (Vec × Bool)) (X : List String) :
    Except String (List Vec × List Bool) :=
  match mapExcept transform_row X with
  | .error e => .error e
  | .ok results =>
    match mapOption (fun r => npSetRow rowSize r.1) results with
    | none => .error "could not broadcast row into matrix"
    | some rows => .ok (rows, results.map (fun r => r.2))

/-!
## Coulomb-Matrix variant
-/

/-- The configured DScribe `CoulombMatrix` builder: its feature count and its
`create` method (`none` when `create` raises). -/
structure CMBuilder (Geom : Type) where
  nFeatures : Nat
  create : Geom → Option Vec

/-- `_CoulombMatrixDesc_compute_from_ASE` applied to the (possibly absent)
ase molecule: calling `create` on `None` raises, and any exception is caught
and turned into `(zeros, False)`.  (The `smiles`, `n_atoms_max` and
`geom_function_name` arguments of the Python function only matter for the
joblib cache key, modelled separately below.) -/
def CM_compute_from_ASE {Geom : Type} (cm : CMBuilder Geom) (ase_mol : Option Geom) :
    Vec × Bool :=
  match ase_mol with
  | none => (npZeros cm.nFeatures, false)
  | some g =>
    match cm.create g with
    | some v => (v, true)
    | none => (npZeros cm.nFeatures, false)

/-- `CoulombMatrixDesc.get_row_size`. -/
def CoulombMatrixDesc.get_row_size {Geom : Type} (cm : CMBuilder Geom) : Nat :=
  cm.nFeatures

/-- `CoulombMatrixDesc.transform_row`.  The joblib-cached call to the
deterministic `_CoulombMatrixDesc_compute_from_ASE` is modelled as the
function itself (the explicitly cache-threaded version is below). -/
def CoulombMatrixDesc.transform_row {Mol Geom : Type} (env : ChemEnv Mol Geom)
    (cm : CMBuilder Geom) (smiles : String) : Except String (Vec × Bool) :=
  match Descriptor.compute_geometry env smiles with
  | .error e => .error e
  | .ok (ase_mol, ase_success) =>
    if ase_success then
      .ok ((CM_compute_from_ASE cm ase_mol).1,
        ase_success && (CM_compute_from_ASE cm ase_mol).2)
    else
      .ok (npZeros (CoulombMatrixDesc.get_row_size cm), false)

/-!
## SOAP variant
-/

/-- The configured DScribe `SOAP` builder. -/
structure SOAPBuilder (Geom : Type) where
  nFeatures : Nat
  create : Geom → Option Vec

/-- The SOAP configuration fields used by `get_row_size` and the cache key.
`n_atoms_max` is `None` (`none`) unless given; `SOAPDesc.__init__` replaces
`None` by 100 when `average == "off"` (see `SOAPDesc.init_n_atoms_max`). -/
structure SOAPCfg where
  rcut : ℚ
  nmax : Nat
  lmax : Nat
  species : List String
  average : String
  n_atoms_max : Option Nat
deriving DecidableEq

/-- The `n_atoms_max` attribute set by `SOAPDesc.__init__`. -/
def SOAPDesc.init_n_atoms_max (average : String) (n_atoms_max : Option Nat) : Option Nat :=
  if average = "off" ∧ n_atoms_max = none then some 100 else n_atoms_max

/-- `SOAPDesc.get_row_size`: per-atom feature count times the maximum atom
count when averaging is off, otherwise the feature count.  (For a
constructed instance `n_atoms_max` is never `none` when `average = "off"`,
so the `getD` default is unreachable there.) -/
def SOAPDesc.get_row_size {Geom : Type} (soap : SOAPBuilder Geom) (cfg : SOAPCfg) : Nat :=
  if cfg.average = "off" then soap.nFeatures * (cfg.n_atoms_max.getD 0)
  else soap.nFeatures

/-- `_SOAPDesc_compute_from_ASE` applied to the (possibly absent) ase
molecule: any exception from `create` (also on a `None` molecule) is caught
and turned into `(zeros, False)`. -/
def SOAP_compute_from_ASE {Geom : Type} (soap : SOAPBuilder Geom) (ase_mol : Option Geom) :
    Vec × Bool :=
  match ase_mol with
  | none => (npZeros soap.nFeatures, false)
  | some g =>
    match soap.create g with
    | some v => (v, true)
    | none => (npZeros soap.nFeatures, false)

/-- `SOAPDesc.transform_row`: on geometry success the (possibly shorter)
descriptor is written over the front of a zero row of full size via
`complete_desc[:len(soap_desc)] = soap_desc`. -/
def SOAPDesc.transform_row {Mol Geom : Type} (env : ChemEnv Mol Geom)
    (soap : SOAPBuilder Geom) (cfg : SOAPCfg) (smiles : String) :
    Except String (Vec × Bool) :=
  match Descriptor.compute_geometry env smiles with
  | .error e => .error e
  | .ok (ase_mol, ase_success) =>
    if ase_success then
      match npAssignSlice (npZeros (SOAPDesc.get_row_size soap cfg))
          (SOAP_compute_from_ASE soap ase_mol).1 with
      | some padded => .ok (padded, ase_success && (SOAP_compute_from_ASE soap ase_mol).2)
      | none => .error "could not broadcast descriptor into row"
    else
      .ok (npZeros (SOAPDesc.get_row_size soap cfg), false)

/-!
## MBTR variant
-/

/-- The configured DScribe `MBTR` builder. -/
structure MBTRBuilder (Geom : Type) where
  nFeatures : Nat
  create : Geom → Option Vec

/-- The MBTR configuration fields that feed the cache key. -/
structure MBTRCfg where
  species : List String
  atomic_numbers_n : Nat
  inverse_distances_n : Nat
  cosine_angles_n : Nat
  normalization : String
deriving DecidableEq

/-- `MBTRDesc.get_row_size`. -/
def MBTRDesc.get_row_size {Geom : Type} (mbtr : MBTRBuilder Geom) : Nat :=
  mbtr.nFeatures

/-- `_MBTRDesc_compute_from_ASE` applied to the (possibly absent) ase
molecule: any exception from `create` is caught and turned into
`(zeros, False)`. -/
def MBTR_compute_from_ASE {Geom : Type} (mbtr : MBTRBuilder Geom) (ase_mol : Option Geom) :
    Vec × Bool :=
  match ase_mol with
  | none => (npZeros mbtr.nFeatures, false)
  | some g =>
    match mbtr.create g with
    | some v => (v, true)
    | none => (npZeros mbtr.nFeatures, false)

/-- `MBTRDesc.transform_row`. -/
def MBTRDesc.transform_row {Mol Geom : Type} (env : ChemEnv Mol Geom)
    (mbtr : MBTRBuilder Geom) (smiles : String) : Except String (Vec × Bool) :=
  match Descriptor.compute_geometry env smiles with
  | .error e => .error e
  | .ok (ase_mol, ase_success) =>
    if ase_success then
      .ok ((MBTR_compute_from_ASE mbtr ase_mol).1,
        ase_success && (MBTR_compute_from_ASE mbtr ase_mol).2)
    else
      .ok (npZeros (MBTRDesc.get_row_size mbtr), false)

/-!
## Shingles variant

`ShinglesVectDesc` keeps mutable per-instance state: the shingle → index
dictionary and the next free index.
-/

/-- The mutable vocabulary state of a `ShinglesVectDesc` instance. -/
structure ShinglesState where
  desc_id_dict : List (String × Nat)
  next_id : Nat
deriving DecidableEq

/-- The vocabulary state set up by `ShinglesVectDesc.__init__`: empty with
`next_id = 0` when no external dictionary is given; otherwise the external
dictionary itself with `next_id = max(values) + 1`.  Python's `max` on an
empty collection raises `ValueError`, so construction fails (`none`) on an
empty external dictionary. -/
def ShinglesVectDesc.init_state (external_desc_id_dict : Option (List (String × Nat))) :
    Option ShinglesState :=
  match external_desc_id_dict with
  | none => some ⟨[], 0⟩
  | some [] => none
  | some (p :: rest) =>
    some ⟨p :: rest, (rest.foldl (fun a q => max a q.2) p.2) + 1⟩

/-- `ShinglesVectDesc.get_row_size` is the configured `vect_size`;
`ShinglesVectDesc.min_row_size` is the current `next_id`. -/
def ShinglesVectDesc.get_row_size (vect_size : Nat) : Nat := vect_size

/-- `ShinglesVectDesc.get_desc_id`: look the shingle up, assigning it the
current `next_id` (and incrementing `next_id`) when absent. -/
def ShinglesVectDesc.get_desc_id (s : ShinglesState) (desc : String) :
    Nat × ShinglesState :=
  match dictLookup s.desc_id_dict desc with
  | some i => (i, s)
  | none => (s.next_id, ⟨(desc, s.next_id) :: s.desc_id_dict, s.next_id + 1⟩)

/-- `ShinglesVectDesc.transform_row` is `pass` in the source: it returns
Python `None`, not a (vector, flag) pair. -/
def ShinglesVectDesc.transform_row (_smiles : String) : Option (Vec × Bool) :=
  none

/-- The inner loop of `ShinglesVectDesc.transform` for one molecule:
`for shg in found_shingles: curr_shg_vect[self.get_desc_id(shg)] += 1`.
An out-of-bounds index raises IndexError, which nothing catches. -/
def shinglesRow : ShinglesState → List String → Vec → Except String (Vec × ShinglesState)
  | s, [], acc => .ok (acc, s)
  | s, shg :: rest, acc =>
    match npIncr acc (ShinglesVectDesc.get_desc_id s shg).1 with
    | some acc2 => shinglesRow (ShinglesVectDesc.get_desc_id s shg).2 rest acc2
    | none => .error "IndexError"

/-- The body of `ShinglesVectDesc.transform`, sequential over the batch:
each molecule's shingles are extracted (the joblib-cached `extract_shingles`,
modelled as a pure `extract` that is `none` when it raises) and accumulated
into a fresh zero row of length `vect_size`. -/
def ShinglesVectDesc.transform_go (extract : String → Option (List String))
    (vect_size : Nat) :
    List String → ShinglesState → Except String (List Vec × ShinglesState)
  | [], s => .ok ([], s)
  | smi :: rest, s =>
    match extract smi with
    | none => .error "extract_shingles raised"
    | some found_shingles =>
      match shinglesRow s found_shingles (npZeros vect_size) with
      | .error e => .error e
      | .ok (row, s2) =>
        match ShinglesVectDesc.transform_go extract vect_size rest s2 with
        | .error e => .error e
        | .ok (rows, s3) => .ok (row :: rows, s3)

/-- `ShinglesVectDesc.transform`: the per-row loop followed by
`return desc, np.full((len(X),), True)` — the success vector is
unconditionally all `True`. -/
def ShinglesVectDesc.transform (extract : String → Option (List String))
    (vect_size : Nat) (X : List String) (s : ShinglesState) :
    Except String ((List Vec × List Bool) × ShinglesState) :=
  match ShinglesVectDesc.transform_go extract vect_size X s with
  | .error e => .error e
  | .ok (rows, s2) => .ok ((rows, List.replicate X.length true), s2)

/-!
## Random-Gaussian variant
-/

/-- `RandomGaussianVectorDesc.get_row_size` is the configured `vect_size`. -/
def RandomGaussianVectorDesc.get_row_size (vect_size : Nat) : Nat := vect_size

/-- `RandomGaussianVectorDesc.transform_row`:
`np.random.normal(self.mu, self.sigma, self.vect_size), True`.  The global
numpy RNG is modelled as a draw counter `rng` and a pure stream
`normal mu sigma i` giving the `i`-th draw from `N(mu, sigma)`; one call
consumes `vect_size` fresh draws and advances the counter. -/
def RandomGaussianVectorDesc.transform_row (mu sigma : ℚ) (vect_size : Nat)
    (normal : ℚ → ℚ → Nat → ℚ) (rng : Nat) : (Vec × Bool) × Nat :=
  (((List.range vect_size).map (fun i => normal mu sigma (rng + i)), true),
    rng + vect_size)

/-!
## Descriptor cache keys

joblib `Memory.cache(f, ignore=[...])` keys a call by the argument values
that are NOT in the ignore list.  All three geometry-based variants pass
`ignore=["<builder>", "ase_mol"]`, so the key of a descriptor-cache entry is
built from the remaining arguments of `_<Variant>_compute_from_ASE` — it
does not depend on the builder object or on the geometry.  The
geometry-method discriminator passed as `geom_function_name` is
`self.geometry_function.__name__`.
-/

/-- `self.geometry_function.__name__` as a function of the `MM_program`
constructor argument (`Descriptor.__init__`): `"obabel"`/`"obabel_mmff94"`
select `obabel_mmff94_xyz`; any string containing `"rdkit"` selects
`rdkit_mm_xyz` (so `"rdkit_mmff94"` and `"rdkit_uff"` share one name); a
user-supplied callable keeps its own name (an opaque tag here). -/
def geometry_function_name (MM_program : String) : String :=
  if MM_program = "obabel" ∨ MM_program = "obabel_mmff94" then "obabel_mmff94_xyz"
  else if "rdkit".toList <:+: MM_program.toList then "rdkit_mm_xyz"
  else "custom_MM_program"

/-- The non-ignored arguments of `_CoulombMatrixDesc_compute_from_ASE`. -/
structure CMDescKey where
  smiles : String
  n_atoms_max : Nat
  geom_function_name : String
deriving DecidableEq

/-- The descriptor-cache key of one `CoulombMatrixDesc.transform_row` call:
`cm_builder` and `ase_mol` are in the joblib ignore list, so the key is
`(smiles, n_atoms_max, geometry_function.__name__)` — the `ase_mol` argument
is taken but unused. -/
def CoulombMatrixDesc.desc_cache_key {Geom : Type} (n_atoms_max : Nat)
    (MM_program : String) (_ase_mol : Option Geom) (smiles : String) : CMDescKey :=
  ⟨smiles, n_atoms_max, geometry_function_name MM_program⟩

/-- The non-ignored arguments of `_SOAPDesc_compute_from_ASE`. -/
structure SOAPDescKey where
  smiles : String
  rcut : ℚ
  nmax : Nat
  lmax : Nat
  species : List String
  average : String
  n_atoms_max : Option Nat
  geom_function_name : String
deriving DecidableEq

/-- The descriptor-cache key of one `SOAPDesc.transform_row` call
(`soap_builder` and `ase_mol` are ignored). -/
def SOAPDesc.desc_cache_key {Geom : Type} (cfg : SOAPCfg) (MM_program : String)
    (_ase_mol : Option Geom) (smiles : String) : SOAPDescKey :=
  ⟨smiles, cfg.rcut, cfg.nmax, cfg.lmax, cfg.species, cfg.average,
    cfg.n_atoms_max, geometry_function_name MM_program⟩

/-- The non-ignored arguments of `_MBTRDesc_compute_from_ASE`. -/
structure MBTRDescKey where
  smiles : String
  species : List String
  atomic_numbers_n : Nat
  inverse_distances_n : Nat
  cosine_angles_n : Nat
  normalization : String
  geom_function_name : String
deriving DecidableEq

/-- The descriptor-cache key of one `MBTRDesc.transform_row` call
(`mbtr_builder` and `ase_mol` are ignored). -/
def MBTRDesc.desc_cache_key {Geom : Type} (cfg : MBTRCfg) (MM_program : String)
    (_ase_mol : Option Geom) (smiles : String) : MBTRDescKey :=
  ⟨smiles, cfg.species, cfg.atomic_numbers_n, cfg.inverse_distances_n,
    cfg.cosine_angles_n, cfg.normalization, geometry_function_name MM_program⟩

/-!
## Explicitly threaded caches (for the idempotence claim)

joblib `Memory` stores the value of a call that returned; a call that raises
stores nothing.  The store is modelled as an association list threaded
through the computation.
-/

/-- A memoized call of a fallible function: a stored value is returned as
is; on a miss the function runs and its value is stored only when it did not
raise. -/
def memoCallF {κ ν : Type} [DecidableEq κ] (f : κ → Option ν)
    (m : List (κ × ν)) (k : κ) : Option ν × List (κ × ν) :=
  match dictLookup m k with
  | some v => (some v, m)
  | none =>
    match f k with
    | some v => (some v, (k, v) :: m)
    | none => (none, m)

/-- A memoized call keyed by `k` whose value on a miss is computed from the
full argument list — this is joblib's `ignore`: ignored arguments (the
builder and the geometry) take part in the computation but not in the key. -/
def memoCallAt {κ ν : Type} [DecidableEq κ] (m : List (κ × ν)) (k : κ)
    (compute : Unit → ν) : ν × List (κ × ν) :=
  match dictLookup m k with
  | some v => (v, m)
  | none => (compute (), (k, compute ()) :: m)

/-- `Descriptor.compute_geometry` with the geometry cache threaded
explicitly (`self.cache_geom_fun`, keyed by the canonical SMILES since the
method parameters are fixed per instance). -/
def Descriptor.compute_geometry_cached {Mol Geom : Type} (env : ChemEnv Mol Geom)
    (gm : List (String × (String × Bool))) (smiles : String) :
    Except String ((Option Geom × Bool) × List (String × (String × Bool))) :=
  match env.molFromSmiles smiles with
  | none => .error "MolToSmiles raised: argument is None"
  | some mol =>
    match memoCallF env.geomFun gm (env.molToSmiles mol) with
    | (none, gm2) => .ok ((none, false), gm2)
    | (some (xyz, success), gm2) =>
      if success then
        match env.readAse xyz with
        | some atoms => .ok ((some atoms, true), gm2)
        | none => .ok ((none, false), gm2)
      else
        .ok ((none, false), gm2)

/-- `CoulombMatrixDesc.transform_row` with both the geometry cache and the
descriptor cache threaded explicitly.  The descriptor-cache key uses the
original (pre-canonicalization) `smiles` argument, as in the source. -/
def CoulombMatrixDesc.transform_row_cached {Mol Geom : Type} (env : ChemEnv Mol Geom)
    (cm : CMBuilder Geom) (n_atoms_max : Nat) (MM_program : String)
    (gm : List (String × (String × Bool))) (dm : List (CMDescKey × (Vec × Bool)))
    (smiles : String) :
    Except String ((Vec × Bool) ×
      (List (String × (String × Bool)) × List (CMDescKey × (Vec × Bool)))) :=
  match Descriptor.compute_geometry_cached env gm smiles with
  | .error e => .error e
  | .ok ((ase_mol, ase_success), gm2) =>
    if ase_success then
      .ok (((memoCallAt dm (CoulombMatrixDesc.desc_cache_key n_atoms_max MM_program ase_mol smiles)
            (fun _ => CM_compute_from_ASE cm ase_mol)).1.1,
          ase_success && (memoCallAt dm
            (CoulombMatrixDesc.desc_cache_key n_atoms_max MM_program ase_mol smiles)
            (fun _ => CM_compute_from_ASE cm ase_mol)).1.2),
        gm2,
        (memoCallAt dm (CoulombMatrixDesc.desc_cache_key n_atoms_max MM_program ase_mol smiles)
          (fun _ => CM_compute_from_ASE cm ase_mol)).2)
    else
      .ok ((npZeros (CoulombMatrixDesc.get_row_size cm), false), gm2, dm)

/-- `SOAPDesc.transform_row` with both caches threaded explicitly. -/
def SOAPDesc.transform_row_cached {Mol Geom : Type} (env : ChemEnv Mol Geom)
    (soap : SOAPBuilder Geom) (cfg : SOAPCfg) (MM_program : String)
    (gm : List (String × (String × Bool))) (dm : List (SOAPDescKey × (Vec × Bool)))
    (smiles : String) :
    Except String ((Vec × Bool) ×
      (List (String × (String × Bool)) × List (SOAPDescKey × (Vec × Bool)))) :=
  match Descriptor.compute_geometry_cached env gm smiles with
  | .error e => .error e
  | .ok ((ase_mol, ase_success), gm2) =>
    if ase_success then
      match npAssignSlice (npZeros (SOAPDesc.get_row_size soap cfg))
          (memoCallAt dm (SOAPDesc.desc_cache_key cfg MM_program ase_mol smiles)
            (fun _ => SOAP_compute_from_ASE soap ase_mol)).1.1 with
      | some padded =>
        .ok ((padded,
            ase_success && (memoCallAt dm (SOAPDesc.desc_cache_key cfg MM_program ase_mol smiles)
              (fun _ => SOAP_compute_from_ASE soap ase_mol)).1.2),
          gm2,
          (memoCallAt dm (SOAPDesc.desc_cache_key cfg MM_program ase_mol smiles)
            (fun _ => SOAP_compute_from_ASE soap ase_mol)).2)
      | none => .error "could not broadcast descriptor into row"
    else
      .ok ((npZeros (SOAPDesc.get_row_size soap cfg), false), gm2, dm)

/-- `MBTRDesc.transform_row` with both caches threaded explicitly. -/
def MBTRDesc.transform_row_cached {Mol Geom : Type} (env : ChemEnv Mol Geom)
    (mbtr : MBTRBuilder Geom) (cfg : MBTRCfg) (MM_program : String)
    (gm : List (String × (String × Bool))) (dm : List (MBTRDescKey × (Vec × Bool)))
    (smiles : String) :
    Except String ((Vec × Bool) ×
      (List (String × (String × Bool)) × List (MBTRDescKey × (Vec × Bool)))) :=
  match Descriptor.compute_geometry_cached env gm smiles with
  | .error e => .error e
  | .ok ((ase_mol, ase_success), gm2) =>
    if ase_success then
      .ok (((memoCallAt dm (MBTRDesc.desc_cache_key cfg MM_program ase_mol smiles)
            (fun _ => MBTR_compute_from_ASE mbtr ase_mol)).1.1,
          ase_success && (memoCallAt dm (MBTRDesc.desc_cache_key cfg MM_program ase_mol smiles)
            (fun _ => MBTR_compute_from_ASE mbtr ase_mol)).1.2),
        gm2,
        (memoCallAt dm (MBTRDesc.desc_cache_key cfg MM_program ase_mol smiles)
          (fun _ => MBTR_compute_from_ASE mbtr ase_mol)).2)
    else
      .ok ((npZeros (MBTRDesc.get_row_size mbtr), false), gm2, dm)

/-!
## Auxiliary definitions for stating and witnessing the claims
-/

/-- The keys of a dictionary. -/
def dictKeys {ν : Type} (m : List (String × ν)) : List String := m.map Prod.fst

/-- The vocabulary state after a sequence of `get_desc_id` calls (the calls a
sequentially processed batch performs, in order). -/
def runShingles : ShinglesState → List String → ShinglesState
  | s, [] => s
  | s, d :: rest => runShingles (ShinglesVectDesc.get_desc_id s d).2 rest

/-- The sub-list of first encounters of shingles not already in `seen`, in
order: exactly the shingles that get fresh indices during a run. -/
def newFirsts (seen : List String) : List String → List String
  | [] => []
  | d :: rest =>
    if d ∈ seen then newFirsts seen rest else d :: newFirsts (d :: seen) rest

/-- The sequence of vocabulary indices `get_desc_id` hands out while one row
is processed (the vocabulary evolution does not depend on the accumulator, so
this is well defined past an IndexError). -/
def rowIds : ShinglesState → List String → List Nat
  | _, [] => []
  | s, d :: rest =>
    (ShinglesVectDesc.get_desc_id s d).1 ::
      rowIds (ShinglesVectDesc.get_desc_id s d).2 rest

/-- A concrete environment whose SMILES parser rejects the single string
`"("` — as RDKit's `MolFromSmiles` returns `None` on a syntactically invalid
SMILES — and whose geometry pipeline otherwise always succeeds. -/
def parseRejectEnv : ChemEnv String String where
  molFromSmiles := fun s => if s = "(" then none else some s
  molToSmiles := fun m => m
  geomFun := fun _ => some ("xyz", true)
  readAse := fun _ => some "atoms"

/-- A concrete environment whose geometry backend always reports failure. -/
def geomFailEnv : ChemEnv String String where
  molFromSmiles := fun s => some s
  molToSmiles := fun m => m
  geomFun := fun _ => some ("", false)
  readAse := fun _ => some "atoms"

/-- A concrete environment in which every step succeeds. -/
def okEnv : ChemEnv String String where
  molFromSmiles := fun s => some s
  molToSmiles := fun m => m
  geomFun := fun _ => some ("xyz", true)
  readAse := fun _ => some "atoms"

/-- A concrete RNG stream: the `i`-th normal draw is modelled as `i` itself
(only distinctness of consecutive draws matters). -/
def natSampler : ℚ → ℚ → Nat → ℚ := fun _ _ n => (n : ℚ)

/-!
## Helper lemmas
-/

theorem npZeros_length (n : Nat) : (npZeros n).length = n := by
  simp [npZeros]

theorem npSetRow_length {rowSize : Nat} {row out : Vec}
    (h : npSetRow rowSize row = some out) : out.length = rowSize := by
  unfold npSetRow at h
  split at h
  · cases h; omega
  · split at h
    · cases h; simp
    · cases h

theorem mapExcept_ok_length {α β : Type} {f : α → Except String β} :
    ∀ {l : List α} {out : List β}, mapExcept f l = .ok out → out.length = l.length := by
  intro l
  induction l with
  | nil => intro out h; cases h; rfl
  | cons a rest ih =>
    intro out h
    unfold mapExcept at h
    cases hfa : f a with
    | error e => rw [hfa] at h; cases h
    | ok b =>
      rw [hfa] at h
      cases hrest : mapExcept f rest with
      | error e => rw [hrest] at h; cases h
      | ok bs =>
        rw [hrest] at h
        cases h
        simp [ih hrest]

theorem mapOption_ok {α β : Type} {f : α → Option β} :
    ∀ {l : List α} {out : List β}, mapOption f l = some out →
      out.length = l.length ∧ ∀ b ∈ out, ∃ a, f a = some b := by
  intro l
  induction l with
  | nil =>
    intro out h; cases h
    exact ⟨rfl, by intro b hb; cases hb⟩
  | cons a rest ih =>
    intro out h
    unfold mapOption at h
    cases hfa : f a with
    | none => rw [hfa] at h; cases h
    | some b =>
      rw [hfa] at h
      cases hrest : mapOption f rest with
      | none => rw [hrest] at h; cases h
      | some bs =>
        rw [hrest] at h
        cases h
        obtain ⟨hlen, hmem⟩ := ih hrest
        refine ⟨by simp [hlen], ?_⟩
        intro c hc
        rcases List.mem_cons.mp hc with hc | hc
        · exact ⟨a, hc ▸ hfa⟩
        · exact hmem c hc

theorem shinglesRow_ok_length :
    ∀ (L : List String) (s : ShinglesState) (acc v : Vec) (s2 : ShinglesState),
      shinglesRow s L acc = .ok (v, s2) → v.length = acc.length := by
  intro L
  induction L with
  | nil =>
    intro s acc v s2 h
    cases h; rfl
  | cons shg rest ih =>
    intro s acc v s2 h
    unfold shinglesRow at h
    split at h
    · rename_i acc2 hinc
      have hlen : acc2.length = acc.length := by
        unfold npIncr at hinc
        split at hinc
        · cases hinc; simp
        · cases hinc
      rw [ih _ _ _ _ h, hlen]
    · cases h

theorem transform_go_ok_shape {extract : String → Option (List String)} {vect_size : Nat} :
    ∀ (X : List String) (s : ShinglesState) (rows : List Vec) (s2 : ShinglesState),
      ShinglesVectDesc.transform_go extract vect_size X s = .ok (rows, s2) →
      rows.length = X.length ∧ ∀ r ∈ rows, r.length = vect_size := by
  intro X
  induction X with
  | nil =>
    intro s rows s2 h
    cases h
    exact ⟨rfl, by intro r hr; cases hr⟩
  | cons smi rest ih =>
    intro s rows s2 h
    unfold ShinglesVectDesc.transform_go at h
    split at h
    · cases h
    · rename_i found hex
      split at h
      · cases h
      · rename_i row s' hrow
        split at h
        · cases h
        · rename_i rows2 s3 hrest
          have hrowlen := shinglesRow_ok_length found s (npZeros vect_size) row s' hrow
          rw [npZeros_length] at hrowlen
          cases h
          obtain ⟨hlen, hmem⟩ := ih _ _ _ hrest
          refine ⟨by simp [hlen], ?_⟩
          intro r hr
          rcases List.mem_cons.mp hr with hr | hr
          · rw [hr]; exact hrowlen
          · exact hmem r hr

theorem CM_transform_row_eq_of_geom {Mol Geom : Type} (env : ChemEnv Mol Geom)
    (cm : CMBuilder Geom) (smiles : String) (g : Option Geom) (s1 : Bool)
    (hgeo : Descriptor.compute_geometry env smiles = .ok (g, s1)) :
    CoulombMatrixDesc.transform_row env cm smiles =
      if s1 then
        .ok ((CM_compute_from_ASE cm g).1, s1 && (CM_compute_from_ASE cm g).2)
      else
        .ok (npZeros (CoulombMatrixDesc.get_row_size cm), false) := by
  unfold CoulombMatrixDesc.transform_row
  rw [hgeo]

theorem SOAP_transform_row_eq_of_geom {Mol Geom : Type} (env : ChemEnv Mol Geom)
    (soap : SOAPBuilder Geom) (cfg : SOAPCfg) (smiles : String)
    (g : Option Geom) (s1 : Bool)
    (hgeo : Descriptor.compute_geometry env smiles = .ok (g, s1)) :
    SOAPDesc.transform_row env soap cfg smiles =
      if s1 then
        match npAssignSlice (npZeros (SOAPDesc.get_row_size soap cfg))
            (SOAP_compute_from_ASE soap g).1 with
        | some padded =>
          .ok (padded, s1 && (SOAP_compute_from_ASE soap g).2)
        | none => .error "could not broadcast descriptor into row"
      else
        .ok (npZeros (SOAPDesc.get_row_size soap cfg), false) := by
  unfold SOAPDesc.transform_row
  rw [hgeo]

theorem MBTR_transform_row_eq_of_geom {Mol Geom : Type} (env : ChemEnv Mol Geom)
    (mbtr : MBTRBuilder Geom) (smiles : String) (g : Option Geom) (s1 : Bool)
    (hgeo : Descriptor.compute_geometry env smiles = .ok (g, s1)) :
    MBTRDesc.transform_row env mbtr smiles =
      if s1 then
        .ok ((MBTR_compute_from_ASE mbtr g).1, s1 && (MBTR_compute_from_ASE mbtr g).2)
      else
        .ok (npZeros (MBTRDesc.get_row_size mbtr), false) := by
  unfold MBTRDesc.transform_row
  rw [hgeo]

/-!
## Claim C1
-/

/-- C1: for every descriptor variant and every input list `X`, a `transform`
call that returns yields a matrix of shape exactly
`(len(X), get_row_size())` together with a success vector of length
`len(X)`, regardless of how many rows fail — shown for the generic parallel
batch driver `Descriptor.transform` (used by every variant with an arbitrary
per-row function) and for the sequential `ShinglesVectDesc.transform`. -/
theorem C1_transform_output_shape :
    (∀ (rowSize : Nat) (transform_row : String → Except String (Vec × Bool))
        (X : List String) (M : List Vec) (S : List Bool),
        Descriptor.transform rowSize transform_row X = .ok (M, S) →
        M.length = X.length ∧ (∀ r ∈ M, r.length = rowSize) ∧ S.length = X.length) ∧
    (∀ (extract : String → Option (List String)) (vect_size : Nat)
        (X : List String) (M : List Vec) (S : List Bool) (s s2 : ShinglesState),
        ShinglesVectDesc.transform extract vect_size X s = .ok ((M, S), s2) →
        M.length = X.length ∧
          (∀ r ∈ M, r.length = ShinglesVectDesc.get_row_size vect_size) ∧
          S.length = X.length) := by
  constructor
  · intro rowSize transform_row X M S h
    unfold Descriptor.transform at h
    split at h
    · cases h
    · rename_i results hm
      split at h
      · cases h
      · rename_i rows ho
        cases h
        obtain ⟨hlen, hmem⟩ := mapOption_ok ho
        have hres := mapExcept_ok_length hm
        refine ⟨by rw [hlen, hres], ?_, by simp [hres]⟩
        intro r hr
        obtain ⟨a, ha⟩ := hmem r hr
        exact npSetRow_length ha
  · intro extract vect_size X M S s s2 h
    unfold ShinglesVectDesc.transform at h
    split at h
    · cases h
    · rename_i rows s3 hg
      obtain ⟨hlen, hmem⟩ := transform_go_ok_shape X s rows s3 hg
      have h' := h
      simp only [Except.ok.injEq, Prod.mk.injEq] at h'
      obtain ⟨⟨hM, hS⟩, _⟩ := h'
      subst hM
      subst hS
      exact ⟨hlen, hmem, by simp⟩

/-- Witness for C1 at a concrete input: a two-element batch through the
generic driver with a row function of declared size 2. -/
theorem C1_transform_output_shape_witness :
    ([[(1 : ℚ), 2], [1, 2]] : List Vec).length = (["a", "b"] : List String).length ∧
      (∀ r ∈ ([[(1 : ℚ), 2], [1, 2]] : List Vec), r.length = 2) ∧
      ([true, true]).length = (["a", "b"] : List String).length := by
  exact C1_transform_output_shape.1 2 (fun _ => .ok ([1, 2], true)) ["a", "b"]
    [[1, 2], [1, 2]] [true, true] rfl

/-!
## Claim C2
-/

/-- C2 (refuting the claim as a code bug): `transform_row` CAN raise.  The
canonicalization `MolToSmiles(MolFromSmiles(smiles))` sits before the `try`
block of `compute_geometry`, so for a SMILES the parser rejects (here the
syntactically invalid `"("`, on which `MolFromSmiles` returns `None` and
`MolToSmiles(None)` raises) the exception propagates out of `transform_row`
instead of being converted to `(zero-vector, false)`, and the whole batch
submitted to `Descriptor.transform` aborts with it. -/
theorem C2_invalid_smiles_raises :
    CoulombMatrixDesc.transform_row parseRejectEnv
        ⟨4, fun _ => some (npZeros 4)⟩ "(" =
      .error "MolToSmiles raised: argument is None" ∧
    Descriptor.transform 4
        (CoulombMatrixDesc.transform_row parseRejectEnv ⟨4, fun _ => some (npZeros 4)⟩)
        ["C", "("] =
      .error "MolToSmiles raised: argument is None" := by
  constructor
  · rfl
  · rfl

/-!
## Claim C4
-/

/-- C4: for the Coulomb-Matrix, SOAP and MBTR variants, when the geometry
computation returns failure, `transform_row` returns `(zero-vector, false)`
and the result does not depend on the descriptor builder's `create` function
(no descriptor computation is attempted); and whenever `transform_row`
returns at all, its success flag is the conjunction of the geometry success
flag and the descriptor-computation success flag. -/
theorem C4_geometry_failure_and_success_flag :
    (∀ (Mol Geom : Type) (env : ChemEnv Mol Geom) (nf : Nat)
        (create₁ create₂ : Geom → Option Vec) (smiles : String) (g : Option Geom),
        Descriptor.compute_geometry env smiles = .ok (g, false) →
        CoulombMatrixDesc.transform_row env ⟨nf, create₁⟩ smiles =
            .ok (npZeros nf, false) ∧
          CoulombMatrixDesc.transform_row env ⟨nf, create₁⟩ smiles =
            CoulombMatrixDesc.transform_row env ⟨nf, create₂⟩ smiles) ∧
    (∀ (Mol Geom : Type) (env : ChemEnv Mol Geom) (cm : CMBuilder Geom)
        (smiles : String) (g : Option Geom) (s1 : Bool) (v : Vec) (b : Bool),
        Descriptor.compute_geometry env smiles = .ok (g, s1) →
        CoulombMatrixDesc.transform_row env cm smiles = .ok (v, b) →
        b = (s1 && (CM_compute_from_ASE cm g).2)) ∧
    (∀ (Mol Geom : Type) (env : ChemEnv Mol Geom) (nf : Nat)
        (create₁ create₂ : Geom → Option Vec) (cfg : SOAPCfg)
        (smiles : String) (g : Option Geom),
        Descriptor.compute_geometry env smiles = .ok (g, false) →
        SOAPDesc.transform_row env ⟨nf, create₁⟩ cfg smiles =
            .ok (npZeros (SOAPDesc.get_row_size ⟨nf, create₁⟩ cfg), false) ∧
          SOAPDesc.transform_row env ⟨nf, create₁⟩ cfg smiles =
            SOAPDesc.transform_row env ⟨nf, create₂⟩ cfg smiles) ∧
    (∀ (Mol Geom : Type) (env : ChemEnv Mol Geom) (soap : SOAPBuilder Geom)
        (cfg : SOAPCfg) (smiles : String) (g : Option Geom) (s1 : Bool)
        (v : Vec) (b : Bool),
        Descriptor.compute_geometry env smiles = .ok (g, s1) →
        SOAPDesc.transform_row env soap cfg smiles = .ok (v, b) →
        b = (s1 && (SOAP_compute_from_ASE soap g).2)) ∧
    (∀ (Mol Geom : Type) (env : ChemEnv Mol Geom) (nf : Nat)
        (create₁ create₂ : Geom → Option Vec) (smiles : String) (g : Option Geom),
        Descriptor.compute_geometry env smiles = .ok (g, false) →
        MBTRDesc.transform_row env ⟨nf, create₁⟩ smiles =
            .ok (npZeros nf, false) ∧
          MBTRDesc.transform_row env ⟨nf, create₁⟩ smiles =
            MBTRDesc.transform_row env ⟨nf, create₂⟩ smiles) ∧
    (∀ (Mol Geom : Type) (env : ChemEnv Mol Geom) (mbtr : MBTRBuilder Geom)
        (smiles : String) (g : Option Geom) (s1 : Bool) (v : Vec) (b : Bool),
        Descriptor.compute_geometry env smiles = .ok (g, s1) →
        MBTRDesc.transform_row env mbtr smiles = .ok (v, b) →
        b = (s1 && (MBTR_compute_from_ASE mbtr g).2)) := by
  refine ⟨?_, ?_, ?_, ?_, ?_, ?_⟩
  · intro Mol Geom env nf create₁ create₂ smiles g hgeo
    rw [CM_transform_row_eq_of_geom env ⟨nf, create₁⟩ smiles g false hgeo,
      CM_transform_row_eq_of_geom env ⟨nf, create₂⟩ smiles g false hgeo]
    exact ⟨rfl, rfl⟩
  · intro Mol Geom env cm smiles g s1 v b hgeo hrow
    rw [CM_transform_row_eq_of_geom env cm smiles g s1 hgeo] at hrow
    cases s1
    · simp at hrow
      simp [hrow.2]
    · simp at hrow
      simp [hrow]
  · intro Mol Geom env nf create₁ create₂ cfg smiles g hgeo
    rw [SOAP_transform_row_eq_of_geom env ⟨nf, create₁⟩ cfg smiles g false hgeo,
      SOAP_transform_row_eq_of_geom env ⟨nf, create₂⟩ cfg smiles g false hgeo]
    exact ⟨rfl, rfl⟩
  · intro Mol Geom env soap cfg smiles g s1 v b hgeo hrow
    rw [SOAP_transform_row_eq_of_geom env soap cfg smiles g s1 hgeo] at hrow
    cases s1
    · simp at hrow
      simp [hrow.2]
    · simp only [if_true] at hrow
      split at hrow
      · simp at hrow
        simp [hrow.2]
      · cases hrow
  · intro Mol Geom env nf create₁ create₂ smiles g hgeo
    rw [MBTR_transform_row_eq_of_geom env ⟨nf, create₁⟩ smiles g false hgeo,
      MBTR_transform_row_eq_of_geom env ⟨nf, create₂⟩ smiles g false hgeo]
    exact ⟨rfl, rfl⟩
  · intro Mol Geom env mbtr smiles g s1 v b hgeo hrow
    rw [MBTR_transform_row_eq_of_geom env mbtr smiles g s1 hgeo] at hrow
    cases s1
    · simp at hrow
      simp [hrow.2]
    · simp at hrow
      simp [hrow]

/-- Witness for C4 at a concrete input: an environment whose geometry
backend reports failure, a Coulomb-Matrix builder of size 3. -/
theorem C4_geometry_failure_and_success_flag_witness :
    CoulombMatrixDesc.transform_row geomFailEnv
        ⟨3, fun _ => some (npZeros 3)⟩ "C" = .ok (npZeros 3, false) ∧
      CoulombMatrixDesc.transform_row geomFailEnv
          ⟨3, fun _ => some (npZeros 3)⟩ "C" =
        CoulombMatrixDesc.transform_row geomFailEnv ⟨3, fun _ => none⟩ "C" := by
  exact C4_geometry_failure_and_success_flag.1 String String geomFailEnv 3
    (fun _ => some (npZeros 3)) (fun _ => none) "C" none rfl

theorem CM_compute_from_ASE_snd_false {Geom : Type} (cm : CMBuilder Geom)
    (g : Option Geom) (h : (CM_compute_from_ASE cm g).2 = false) :
    (CM_compute_from_ASE cm g).1 = npZeros cm.nFeatures := by
  cases g with
  | none => rfl
  | some g' =>
    cases hc : cm.create g' with
    | none => simp [CM_compute_from_ASE, hc]
    | some v => simp [CM_compute_from_ASE, hc] at h

theorem SOAP_compute_from_ASE_snd_false {Geom : Type} (soap : SOAPBuilder Geom)
    (g : Option Geom) (h : (SOAP_compute_from_ASE soap g).2 = false) :
    (SOAP_compute_from_ASE soap g).1 = npZeros soap.nFeatures := by
  cases g with
  | none => rfl
  | some g' =>
    cases hc : soap.create g' with
    | none => simp [SOAP_compute_from_ASE, hc]
    | some v => simp [SOAP_compute_from_ASE, hc] at h

theorem MBTR_compute_from_ASE_snd_false {Geom : Type} (mbtr : MBTRBuilder Geom)
    (g : Option Geom) (h : (MBTR_compute_from_ASE mbtr g).2 = false) :
    (MBTR_compute_from_ASE mbtr g).1 = npZeros mbtr.nFeatures := by
  cases g with
  | none => rfl
  | some g' =>
    cases hc : mbtr.create g' with
    | none => simp [MBTR_compute_from_ASE, hc]
    | some v => simp [MBTR_compute_from_ASE, hc] at h

theorem npAssignSlice_zeros {R k : Nat} {out : Vec}
    (h : npAssignSlice (npZeros R) (npZeros k) = some out) : out = npZeros R := by
  unfold npAssignSlice at h
  split at h
  · rename_i hle
    cases h
    simp only [npZeros, List.length_replicate] at hle ⊢
    rw [List.drop_replicate, ← List.replicate_add]
    congr 1
    omega
  · cases h

/-!
## Claim C5
-/

/-- C5: for every variant, a row whose success flag is `false` carries the
all-zero vector of length `get_row_size()` — shown for the Coulomb-Matrix,
SOAP (where the failure sub-vector is padded into the full-size row) and
MBTR variants; the random and shingles variants never report failure. -/
theorem C5_failed_row_is_zero_vector :
    (∀ (Mol Geom : Type) (env : ChemEnv Mol Geom) (cm : CMBuilder Geom)
        (smiles : String) (v : Vec),
        CoulombMatrixDesc.transform_row env cm smiles = .ok (v, false) →
        v = npZeros (CoulombMatrixDesc.get_row_size cm)) ∧
    (∀ (Mol Geom : Type) (env : ChemEnv Mol Geom) (soap : SOAPBuilder Geom)
        (cfg : SOAPCfg) (smiles : String) (v : Vec),
        SOAPDesc.transform_row env soap cfg smiles = .ok (v, false) →
        v = npZeros (SOAPDesc.get_row_size soap cfg)) ∧
    (∀ (Mol Geom : Type) (env : ChemEnv Mol Geom) (mbtr : MBTRBuilder Geom)
        (smiles : String) (v : Vec),
        MBTRDesc.transform_row env mbtr smiles = .ok (v, false) →
        v = npZeros (MBTRDesc.get_row_size mbtr)) ∧
    (∀ (mu sigma : ℚ) (n : Nat) (normal : ℚ → ℚ → Nat → ℚ) (rng : Nat),
        (RandomGaussianVectorDesc.transform_row mu sigma n normal rng).1.2 = true) ∧
    (∀ (extract : String → Option (List String)) (vect_size : Nat)
        (X : List String) (M : List Vec) (S : List Bool) (s s2 : ShinglesState),
        ShinglesVectDesc.transform extract vect_size X s = .ok ((M, S), s2) →
        ∀ b ∈ S, b = true) := by
  refine ⟨?_, ?_, ?_, ?_, ?_⟩
  · intro Mol Geom env cm smiles v hrow
    cases hgeo : Descriptor.compute_geometry env smiles with
    | error e =>
      simp [CoulombMatrixDesc.transform_row, hgeo] at hrow
    | ok p =>
      obtain ⟨g, s1⟩ := p
      rw [CM_transform_row_eq_of_geom env cm smiles g s1 hgeo] at hrow
      cases s1
      · simp at hrow
        exact hrow.symm
      · simp at hrow
        have hs : (CM_compute_from_ASE cm g).2 = false := by rw [hrow]
        have h1 := CM_compute_from_ASE_snd_false cm g hs
        rw [hrow] at h1
        exact h1
  · intro Mol Geom env soap cfg smiles v hrow
    cases hgeo : Descriptor.compute_geometry env smiles with
    | error e =>
      simp [SOAPDesc.transform_row, hgeo] at hrow
    | ok p =>
      obtain ⟨g, s1⟩ := p
      rw [SOAP_transform_row_eq_of_geom env soap cfg smiles g s1 hgeo] at hrow
      cases s1
      · simp at hrow
        exact hrow.symm
      · simp only [if_true] at hrow
        split at hrow
        · rename_i padded hpad
          simp at hrow
          obtain ⟨hv, hs⟩ := hrow
          have h1 := SOAP_compute_from_ASE_snd_false soap g hs
          rw [h1] at hpad
          rw [← hv]
          exact npAssignSlice_zeros hpad
        · cases hrow
  · intro Mol Geom env mbtr smiles v hrow
    cases hgeo : Descriptor.compute_geometry env smiles with
    | error e =>
      simp [MBTRDesc.transform_row, hgeo] at hrow
    | ok p =>
      obtain ⟨g, s1⟩ := p
      rw [MBTR_transform_row_eq_of_geom env mbtr smiles g s1 hgeo] at hrow
      cases s1
      · simp at hrow
        exact hrow.symm
      · simp at hrow
        have hs : (MBTR_compute_from_ASE mbtr g).2 = false := by rw [hrow]
        have h1 := MBTR_compute_from_ASE_snd_false mbtr g hs
        rw [hrow] at h1
        exact h1
  · intro mu sigma n normal rng
    rfl
  · intro extract vect_size X M S s s2 h
    unfold ShinglesVectDesc.transform at h
    split at h
    · cases h
    · rename_i rows s3 hg
      have h' := h
      simp only [Except.ok.injEq, Prod.mk.injEq] at h'
      obtain ⟨⟨hM, hS⟩, _⟩ := h'
      intro b hb
      rw [← hS] at hb
      exact (List.eq_of_mem_replicate hb)

/-- Witness for C5 at a concrete input: a geometry-failure run of the
Coulomb-Matrix variant with row size 3. -/
theorem C5_failed_row_is_zero_vector_witness :
    npZeros 3 =
      npZeros (CoulombMatrixDesc.get_row_size
        (⟨3, fun _ => some (npZeros 3)⟩ : CMBuilder String)) := by
  exact C5_failed_row_is_zero_vector.1 String String geomFailEnv
    ⟨3, fun _ => some (npZeros 3)⟩ "C" (npZeros 3) rfl

theorem CM_compute_from_ASE_fst_length {Geom : Type} (cm : CMBuilder Geom)
    (hcreate : ∀ g w, cm.create g = some w → w.length = cm.nFeatures)
    (g : Option Geom) : (CM_compute_from_ASE cm g).1.length = cm.nFeatures := by
  cases g with
  | none => simp [CM_compute_from_ASE, npZeros]
  | some g' =>
    cases hc : cm.create g' with
    | none => simp [CM_compute_from_ASE, hc, npZeros]
    | some w => simp [CM_compute_from_ASE, hc, hcreate g' w hc]

theorem MBTR_compute_from_ASE_fst_length {Geom : Type} (mbtr : MBTRBuilder Geom)
    (hcreate : ∀ g w, mbtr.create g = some w → w.length = mbtr.nFeatures)
    (g : Option Geom) : (MBTR_compute_from_ASE mbtr g).1.length = mbtr.nFeatures := by
  cases g with
  | none => simp [MBTR_compute_from_ASE, npZeros]
  | some g' =>
    cases hc : mbtr.create g' with
    | none => simp [MBTR_compute_from_ASE, hc, npZeros]
    | some w => simp [MBTR_compute_from_ASE, hc, hcreate g' w hc]

theorem npAssignSlice_length {base v out : Vec}
    (h : npAssignSlice base v = some out) : out.length = base.length := by
  unfold npAssignSlice at h
  split at h
  · rename_i hle
    cases h
    simp
    omega
  · cases h

/-!
## Claim C8
-/

/-- C8 counterexample: the shingles variant's `transform_row` is `pass` in
the source — on the SMILES `"C"` it returns Python `None`, not a
(vector, success-flag) pair. -/
theorem C8_counterexample_shingles_row :
    ShinglesVectDesc.transform_row "C" = none := rfl

/-- C8 (amended): for the Coulomb-Matrix, SOAP, MBTR and Random-Gaussian
variants, `transform_row` returns a pair of a vector of length
`get_row_size()` and a success flag (for Coulomb-Matrix and MBTR under the
external builder's contract that `create` yields `get_number_of_features()`
values); the shingles variant's `transform_row` instead returns `None`. -/
theorem C8_transform_row_contract :
    (∀ (Mol Geom : Type) (env : ChemEnv Mol Geom) (cm : CMBuilder Geom),
        (∀ g w, cm.create g = some w → w.length = cm.nFeatures) →
        ∀ (smiles : String) (v : Vec) (b : Bool),
          CoulombMatrixDesc.transform_row env cm smiles = .ok (v, b) →
          v.length = CoulombMatrixDesc.get_row_size cm) ∧
    (∀ (Mol Geom : Type) (env : ChemEnv Mol Geom) (soap : SOAPBuilder Geom)
        (cfg : SOAPCfg) (smiles : String) (v : Vec) (b : Bool),
        SOAPDesc.transform_row env soap cfg smiles = .ok (v, b) →
        v.length = SOAPDesc.get_row_size soap cfg) ∧
    (∀ (Mol Geom : Type) (env : ChemEnv Mol Geom) (mbtr : MBTRBuilder Geom),
        (∀ g w, mbtr.create g = some w → w.length = mbtr.nFeatures) →
        ∀ (smiles : String) (v : Vec) (b : Bool),
          MBTRDesc.transform_row env mbtr smiles = .ok (v, b) →
          v.length = MBTRDesc.get_row_size mbtr) ∧
    (∀ (mu sigma : ℚ) (n : Nat) (normal : ℚ → ℚ → Nat → ℚ) (rng : Nat),
        (RandomGaussianVectorDesc.transform_row mu sigma n normal rng).1.1.length =
            RandomGaussianVectorDesc.get_row_size n ∧
          (RandomGaussianVectorDesc.transform_row mu sigma n normal rng).1.2 = true) ∧
    (∀ smiles : String, ShinglesVectDesc.transform_row smiles = none) := by
  refine ⟨?_, ?_, ?_, ?_, ?_⟩
  · intro Mol Geom env cm hcreate smiles v b hrow
    cases hgeo : Descriptor.compute_geometry env smiles with
    | error e =>
      simp [CoulombMatrixDesc.transform_row, hgeo] at hrow
    | ok p =>
      obtain ⟨g, s1⟩ := p
      rw [CM_transform_row_eq_of_geom env cm smiles g s1 hgeo] at hrow
      cases s1
      · simp at hrow
        rw [← hrow.1]
        simp [npZeros, CoulombMatrixDesc.get_row_size]
      · simp at hrow
        have h1 := CM_compute_from_ASE_fst_length cm hcreate g
        rw [hrow] at h1
        exact h1
  · intro Mol Geom env soap cfg smiles v b hrow
    cases hgeo : Descriptor.compute_geometry env smiles with
    | error e =>
      simp [SOAPDesc.transform_row, hgeo] at hrow
    | ok p =>
      obtain ⟨g, s1⟩ := p
      rw [SOAP_transform_row_eq_of_geom env soap cfg smiles g s1 hgeo] at hrow
      cases s1
      · simp at hrow
        rw [← hrow.1]
        simp [npZeros]
      · simp only [if_true] at hrow
        split at hrow
        · rename_i padded hpad
          simp at hrow
          rw [← hrow.1]
          rw [npAssignSlice_length hpad]
          simp [npZeros]
        · cases hrow
  · intro Mol Geom env mbtr hcreate smiles v b hrow
    cases hgeo : Descriptor.compute_geometry env smiles with
    | error e =>
      simp [MBTRDesc.transform_row, hgeo] at hrow
    | ok p =>
      obtain ⟨g, s1⟩ := p
      rw [MBTR_transform_row_eq_of_geom env mbtr smiles g s1 hgeo] at hrow
      cases s1
      · simp at hrow
        rw [← hrow.1]
        simp [npZeros, MBTRDesc.get_row_size]
      · simp at hrow
        have h1 := MBTR_compute_from_ASE_fst_length mbtr hcreate g
        rw [hrow] at h1
        exact h1
  · intro mu sigma n normal rng
    constructor
    · simp [RandomGaussianVectorDesc.transform_row, RandomGaussianVectorDesc.get_row_size]
    · rfl
  · intro smiles
    rfl

/-- Witness for C8 at a concrete input: a successful Coulomb-Matrix run with
a builder of feature count 2 producing the vector `[5, 6]`. -/
theorem C8_transform_row_contract_witness :
    ([(5 : ℚ), 6] : Vec).length =
      CoulombMatrixDesc.get_row_size
        (⟨2, fun _ => some [(5 : ℚ), 6]⟩ : CMBuilder String) := by
  exact C8_transform_row_contract.1 String String okEnv
    ⟨2, fun _ => some [(5 : ℚ), 6]⟩
    (by intro g w hw; cases hw; rfl) "C" [(5 : ℚ), 6] true rfl

/-!
## Claim C3
-/

/-- C3 counterexample: two Coulomb-Matrix calls made with the different
geometry-generation methods `"rdkit_mmff94"` and `"rdkit_uff"` and with
different geometries (`some 0` vs `some 1`) produce the SAME descriptor-cache
key — the key ignores the geometry (joblib `ignore=["cm_builder","ase_mol"]`)
and its method discriminator `geometry_function.__name__` is `rdkit_mm_xyz`
for both rdkit methods. -/
theorem C3_counterexample_cache_key_collision :
    @CoulombMatrixDesc.desc_cache_key Nat 100 "rdkit_mmff94" (some 0) "C" =
        @CoulombMatrixDesc.desc_cache_key Nat 100 "rdkit_uff" (some 1) "C" ∧
      decide (("rdkit_mmff94" : String) = "rdkit_uff") = false ∧
      decide ((some 0 : Option Nat) = some 1) = false := by
  refine ⟨by decide, by decide, by decide⟩

/-- C3 (amended): for the Coulomb-Matrix, SOAP and MBTR variants the
descriptor-cache key is built from the SMILES string, the non-ignored
configuration parameters and the geometry function's NAME — two keys are
equal exactly when those components are equal, so the key never depends on
the geometry object; the name discriminates the obabel family from the rdkit
family but `"rdkit_mmff94"` and `"rdkit_uff"` share one name (and hence can
share cache entries). -/
theorem C3_desc_cache_key_amended :
    (∀ (Geom : Type) (n₁ n₂ : Nat) (p₁ p₂ : String) (g₁ g₂ : Option Geom)
        (s₁ s₂ : String),
        CoulombMatrixDesc.desc_cache_key n₁ p₁ g₁ s₁ =
            CoulombMatrixDesc.desc_cache_key n₂ p₂ g₂ s₂ ↔
          (s₁ = s₂ ∧ n₁ = n₂ ∧
            geometry_function_name p₁ = geometry_function_name p₂)) ∧
    (∀ (Geom : Type) (c₁ c₂ : SOAPCfg) (p₁ p₂ : String) (g₁ g₂ : Option Geom)
        (s₁ s₂ : String),
        SOAPDesc.desc_cache_key c₁ p₁ g₁ s₁ = SOAPDesc.desc_cache_key c₂ p₂ g₂ s₂ ↔
          (s₁ = s₂ ∧ c₁.rcut = c₂.rcut ∧ c₁.nmax = c₂.nmax ∧ c₁.lmax = c₂.lmax ∧
            c₁.species = c₂.species ∧ c₁.average = c₂.average ∧
            c₁.n_atoms_max = c₂.n_atoms_max ∧
            geometry_function_name p₁ = geometry_function_name p₂)) ∧
    (∀ (Geom : Type) (c₁ c₂ : MBTRCfg) (p₁ p₂ : String) (g₁ g₂ : Option Geom)
        (s₁ s₂ : String),
        MBTRDesc.desc_cache_key c₁ p₁ g₁ s₁ = MBTRDesc.desc_cache_key c₂ p₂ g₂ s₂ ↔
          (s₁ = s₂ ∧ c₁.species = c₂.species ∧
            c₁.atomic_numbers_n = c₂.atomic_numbers_n ∧
            c₁.inverse_distances_n = c₂.inverse_distances_n ∧
            c₁.cosine_angles_n = c₂.cosine_angles_n ∧
            c₁.normalization = c₂.normalization ∧
            geometry_function_name p₁ = geometry_function_name p₂)) ∧
    geometry_function_name "obabel_mmff94" ≠ geometry_function_name "rdkit_mmff94" ∧
    geometry_function_name "obabel_mmff94" ≠ geometry_function_name "obabel_custom" ∧
    geometry_function_name "rdkit_mmff94" = geometry_function_name "rdkit_uff" := by
  refine ⟨?_, ?_, ?_, by decide, by decide, by decide⟩
  · intro Geom n₁ n₂ p₁ p₂ g₁ g₂ s₁ s₂
    simp [CoulombMatrixDesc.desc_cache_key, CMDescKey.mk.injEq]
  · intro Geom c₁ c₂ p₁ p₂ g₁ g₂ s₁ s₂
    simp [SOAPDesc.desc_cache_key, SOAPDescKey.mk.injEq]
  · intro Geom c₁ c₂ p₁ p₂ g₁ g₂ s₁ s₂
    simp [MBTRDesc.desc_cache_key, MBTRDescKey.mk.injEq]

theorem dictLookup_eq_none_iff {ν : Type} :
    ∀ (m : List (String × ν)) (d : String),
      dictLookup m d = none ↔ d ∉ dictKeys m := by
  intro m
  induction m with
  | nil => intro d; simp [dictLookup, dictKeys]
  | cons p rest ih =>
    intro d
    obtain ⟨k, v⟩ := p
    by_cases hd : d = k
    · subst hd
      simp [dictLookup, dictKeys]
    · simp [dictLookup, hd, dictKeys, ih d]

theorem get_desc_id_preserve (s : ShinglesState) (e d : String) (i : Nat)
    (h : dictLookup s.desc_id_dict d = some i) :
    dictLookup (ShinglesVectDesc.get_desc_id s e).2.desc_id_dict d = some i := by
  unfold ShinglesVectDesc.get_desc_id
  cases he : dictLookup s.desc_id_dict e with
  | some j => exact h
  | none =>
    have hde : d ≠ e := by
      intro hde
      rw [hde, he] at h
      cases h
    simp [dictLookup, hde, h]

theorem runShingles_preserve :
    ∀ (L : List String) (s : ShinglesState) (d : String) (i : Nat),
      dictLookup s.desc_id_dict d = some i →
      dictLookup (runShingles s L).desc_id_dict d = some i := by
  intro L
  induction L with
  | nil => intro s d i h; exact h
  | cons e rest ih =>
    intro s d i h
    exact ih _ d i (get_desc_id_preserve s e d i h)

theorem le_foldl_max :
    ∀ (l : List (String × Nat)) (a : Nat), a ≤ l.foldl (fun b q => max b q.2) a := by
  intro l
  induction l with
  | nil => intro a; exact Nat.le_refl a
  | cons p rest ih =>
    intro a
    exact Nat.le_trans (Nat.le_max_left a p.2) (ih (max a p.2))

theorem mem_le_foldl_max :
    ∀ (l : List (String × Nat)) (a : Nat) (p : String × Nat), p ∈ l →
      p.2 ≤ l.foldl (fun b q => max b q.2) a := by
  intro l
  induction l with
  | nil => intro a p hp; cases hp
  | cons q rest ih =>
    intro a p hp
    rcases List.mem_cons.mp hp with hp | hp
    · subst hp
      exact Nat.le_trans (Nat.le_max_right a p.2) (le_foldl_max rest (max a p.2))
    · exact ih (max a q.2) p hp

theorem runShingles_cons (s : ShinglesState) (d : String) (L : List String) :
    runShingles s (d :: L) = runShingles (ShinglesVectDesc.get_desc_id s d).2 L :=
  rfl

theorem newFirsts_cons_mem (seen : List String) (d : String) (rest : List String)
    (h : d ∈ seen) : newFirsts seen (d :: rest) = newFirsts seen rest := by
  simp only [newFirsts]
  rw [if_pos h]

theorem newFirsts_cons_not_mem (seen : List String) (d : String) (rest : List String)
    (h : d ∉ seen) :
    newFirsts seen (d :: rest) = d :: newFirsts (d :: seen) rest := by
  simp only [newFirsts]
  rw [if_neg h]

theorem runShingles_assigns_in_order :
    ∀ (L : List String) (s : ShinglesState) (j : Nat),
      j < (newFirsts (dictKeys s.desc_id_dict) L).length →
      dictLookup (runShingles s L).desc_id_dict
          ((newFirsts (dictKeys s.desc_id_dict) L).getD j "") =
        some (s.next_id + j) := by
  intro L
  induction L with
  | nil =>
    intro s j hj
    simp [newFirsts] at hj
  | cons d rest ih =>
    intro s j hj
    by_cases hd : d ∈ dictKeys s.desc_id_dict
    · have hlook : dictLookup s.desc_id_dict d ≠ none := fun hnone =>
        ((dictLookup_eq_none_iff s.desc_id_dict d).mp hnone) hd
      obtain ⟨i, hi⟩ := Option.ne_none_iff_exists'.mp hlook
      have hstate : ShinglesVectDesc.get_desc_id s d = (i, s) := by
        unfold ShinglesVectDesc.get_desc_id
        rw [hi]
      have hrun : runShingles s (d :: rest) = runShingles s rest := by
        rw [runShingles_cons, hstate]
      have hnf := newFirsts_cons_mem (dictKeys s.desc_id_dict) d rest hd
      rw [hrun, hnf]
      rw [hnf] at hj
      exact ih s j hj
    · have hlook : dictLookup s.desc_id_dict d = none := by
        rw [dictLookup_eq_none_iff]
        exact hd
      have hstate : ShinglesVectDesc.get_desc_id s d =
          (s.next_id, ⟨(d, s.next_id) :: s.desc_id_dict, s.next_id + 1⟩) := by
        unfold ShinglesVectDesc.get_desc_id
        rw [hlook]
      have hrun : runShingles s (d :: rest) =
          runShingles ⟨(d, s.next_id) :: s.desc_id_dict, s.next_id + 1⟩ rest := by
        rw [runShingles_cons, hstate]
      have hnf := newFirsts_cons_not_mem (dictKeys s.desc_id_dict) d rest hd
      have hkeys : dictKeys
          ((⟨(d, s.next_id) :: s.desc_id_dict, s.next_id + 1⟩ :
            ShinglesState).desc_id_dict) = d :: dictKeys s.desc_id_dict := by
        simp [dictKeys]
      rw [hrun, hnf]
      rw [hnf] at hj
      cases j with
      | zero =>
        simp only [List.getD_cons_zero]
        refine runShingles_preserve rest _ d s.next_id ?_
        simp [dictLookup]
      | succ j' =>
        simp only [List.getD_cons_succ]
        have hj' : j' < (newFirsts
            (dictKeys ((⟨(d, s.next_id) :: s.desc_id_dict, s.next_id + 1⟩ :
              ShinglesState).desc_id_dict)) rest).length := by
          rw [hkeys]
          simpa using hj
        have hrec := ih ⟨(d, s.next_id) :: s.desc_id_dict, s.next_id + 1⟩ j' hj'
        rw [hkeys] at hrec
        have hnext : (⟨(d, s.next_id) :: s.desc_id_dict, s.next_id + 1⟩ :
            ShinglesState).next_id = s.next_id + 1 := rfl
        rw [hnext] at hrec
        rw [hrec]
        congr 1
        omega

/-!
## Claim C6
-/

/-- C6: over any sequentially processed batch, a shingle absent from the
vocabulary is assigned the current next-free index (which then increments by
one); indices are handed out in order of first encounter (`newFirsts`),
starting at the current `next_id`; an existing shingle-to-index entry is
never changed by any later processing; and a vocabulary seeded from a
(nonempty) external mapping keeps that mapping and starts `next_id` above
every seeded index. -/
theorem C6_shingles_vocabulary_invariants :
    (∀ (s : ShinglesState) (d : String),
        dictLookup s.desc_id_dict d = none →
        (ShinglesVectDesc.get_desc_id s d).1 = s.next_id ∧
          ((ShinglesVectDesc.get_desc_id s d).2).next_id = s.next_id + 1 ∧
          dictLookup ((ShinglesVectDesc.get_desc_id s d).2).desc_id_dict d =
            some s.next_id) ∧
    (∀ (s : ShinglesState) (L : List String) (d : String) (i : Nat),
        dictLookup s.desc_id_dict d = some i →
        dictLookup (runShingles s L).desc_id_dict d = some i) ∧
    (∀ (s : ShinglesState) (L : List String) (j : Nat),
        j < (newFirsts (dictKeys s.desc_id_dict) L).length →
        dictLookup (runShingles s L).desc_id_dict
            ((newFirsts (dictKeys s.desc_id_dict) L).getD j "") =
          some (s.next_id + j)) ∧
    (∀ (ext : List (String × Nat)) (s0 : ShinglesState),
        ShinglesVectDesc.init_state (some ext) = some s0 →
        s0.desc_id_dict = ext ∧ ∀ p ∈ ext, p.2 < s0.next_id) := by
  refine ⟨?_, ?_, ?_, ?_⟩
  · intro s d h
    unfold ShinglesVectDesc.get_desc_id
    rw [h]
    refine ⟨rfl, rfl, ?_⟩
    simp [dictLookup]
  · intro s L d i h
    exact runShingles_preserve L s d i h
  · intro s L j hj
    exact runShingles_assigns_in_order L s j hj
  · intro ext s0 h
    cases ext with
    | nil => cases h
    | cons p rest =>
      unfold ShinglesVectDesc.init_state at h
      cases h
      refine ⟨rfl, ?_⟩
      intro q hq
      rcases List.mem_cons.mp hq with hq | hq
      · subst hq
        have := le_foldl_max rest q.2
        simpa using Nat.lt_succ_of_le this
      · have := mem_le_foldl_max rest p.2 q hq
        simpa using Nat.lt_succ_of_le this

/-- Witness for C6 at a concrete input: a vocabulary holding `"a"` at index
0 with `next_id = 1` assigns the fresh shingle `"b"` index 1 and moves
`next_id` to 2. -/
theorem C6_shingles_vocabulary_invariants_witness :
    (ShinglesVectDesc.get_desc_id ⟨[("a", 0)], 1⟩ "b").1 = 1 ∧
      ((ShinglesVectDesc.get_desc_id ⟨[("a", 0)], 1⟩ "b").2).next_id = 1 + 1 ∧
      dictLookup ((ShinglesVectDesc.get_desc_id ⟨[("a", 0)], 1⟩ "b").2).desc_id_dict
          "b" = some 1 := by
  exact C6_shingles_vocabulary_invariants.1 ⟨[("a", 0)], 1⟩ "b" (by decide)

theorem shinglesRow_error_iff :
    ∀ (L : List String) (s : ShinglesState) (acc : Vec),
      (∃ e, shinglesRow s L acc = .error e) ↔ ∃ i ∈ rowIds s L, acc.length ≤ i := by
  intro L
  induction L with
  | nil =>
    intro s acc
    simp [shinglesRow, rowIds]
  | cons shg rest ih =>
    intro s acc
    by_cases hi : (ShinglesVectDesc.get_desc_id s shg).1 < acc.length
    · have hinc : npIncr acc (ShinglesVectDesc.get_desc_id s shg).1 =
          some (acc.set (ShinglesVectDesc.get_desc_id s shg).1
            (acc.getD (ShinglesVectDesc.get_desc_id s shg).1 0 + 1)) := by
        simp [npIncr, hi]
      have hstep : shinglesRow s (shg :: rest) acc =
          shinglesRow (ShinglesVectDesc.get_desc_id s shg).2 rest
            (acc.set (ShinglesVectDesc.get_desc_id s shg).1
              (acc.getD (ShinglesVectDesc.get_desc_id s shg).1 0 + 1)) := by
        simp only [shinglesRow, hinc]
      have hiff := ih (ShinglesVectDesc.get_desc_id s shg).2
        (acc.set (ShinglesVectDesc.get_desc_id s shg).1
          (acc.getD (ShinglesVectDesc.get_desc_id s shg).1 0 + 1))
      rw [hstep, hiff]
      simp only [List.length_set]
      have hr : rowIds s (shg :: rest) =
          (ShinglesVectDesc.get_desc_id s shg).1 ::
            rowIds (ShinglesVectDesc.get_desc_id s shg).2 rest := rfl
      rw [hr]
      simp only [List.mem_cons]
      constructor
      · rintro ⟨i, hmem, hle⟩
        exact ⟨i, Or.inr hmem, hle⟩
      · rintro ⟨i, hor, hle⟩
        rcases hor with heq | hmem
        · subst heq
          omega
        · exact ⟨i, hmem, hle⟩
    · have hinc : npIncr acc (ShinglesVectDesc.get_desc_id s shg).1 = none := by
        simp [npIncr, hi]
      have hstep : shinglesRow s (shg :: rest) acc = .error "IndexError" := by
        simp only [shinglesRow, hinc]
      refine iff_of_true ⟨"IndexError", hstep⟩ ?_
      refine ⟨(ShinglesVectDesc.get_desc_id s shg).1, ?_, Nat.le_of_not_lt hi⟩
      have hr : rowIds s (shg :: rest) =
          (ShinglesVectDesc.get_desc_id s shg).1 ::
            rowIds (ShinglesVectDesc.get_desc_id s shg).2 rest := rfl
      rw [hr]
      exact List.mem_cons_self _ _

/-!
## Claim C7
-/

/-- C7: processing a row of shingles from a zero vector of the configured
`vect_size` raises IndexError exactly when some shingle of the row is
assigned (or holds) a vocabulary index `≥ vect_size` — there is no
truncation or eviction path — and such a row error propagates out of
`ShinglesVectDesc.transform` uncaught, aborting the batch. -/
theorem C7_vocabulary_overflow_fails_fast :
    (∀ (vect_size : Nat) (s : ShinglesState) (L : List String),
        (∃ e, shinglesRow s L (npZeros vect_size) = .error e) ↔
          ∃ i ∈ rowIds s L, vect_size ≤ i) ∧
    (∀ (extract : String → Option (List String)) (vect_size : Nat)
        (smi : String) (X : List String) (s : ShinglesState)
        (found : List String) (e : String),
        extract smi = some found →
        shinglesRow s found (npZeros vect_size) = .error e →
        ShinglesVectDesc.transform extract vect_size (smi :: X) s = .error e) := by
  constructor
  · intro vect_size s L
    have h := shinglesRow_error_iff L s (npZeros vect_size)
    simpa [npZeros] using h
  · intro extract vect_size smi X s found e hex hrow
    simp only [ShinglesVectDesc.transform, ShinglesVectDesc.transform_go, hex, hrow]

/-- Witness for C7 at a concrete input: with `vect_size = 1` and an empty
vocabulary, the second distinct shingle of a row gets index 1 and the
batch aborts with IndexError. -/
theorem C7_vocabulary_overflow_fails_fast_witness :
    ShinglesVectDesc.transform (fun _ => some ["a", "b"]) 1 ["C"] ⟨[], 0⟩ =
      .error "IndexError" := by
  exact C7_vocabulary_overflow_fails_fast.2 (fun _ => some ["a", "b"]) 1 "C" []
    ⟨[], 0⟩ ["a", "b"] "IndexError" rfl rfl

theorem dictLookup_cons_self {κ ν : Type} [DecidableEq κ] (k : κ) (v : ν)
    (m : List (κ × ν)) : dictLookup ((k, v) :: m) k = some v := by
  simp [dictLookup]

theorem memoCallF_repeat {κ ν : Type} [DecidableEq κ] (f : κ → Option ν)
    (m : List (κ × ν)) (k : κ) :
    memoCallF f (memoCallF f m k).2 k = memoCallF f m k := by
  cases hl : dictLookup m k with
  | some v => simp [memoCallF, hl]
  | none =>
    cases hf : f k with
    | some v => simp [memoCallF, hl, hf, dictLookup_cons_self]
    | none => simp [memoCallF, hl, hf]

theorem memoCallAt_repeat {κ ν : Type} [DecidableEq κ] (m : List (κ × ν)) (k : κ)
    (c c' : Unit → ν) :
    memoCallAt (memoCallAt m k c).2 k c' = memoCallAt m k c := by
  cases hl : dictLookup m k with
  | some v => simp [memoCallAt, hl]
  | none => simp [memoCallAt, hl, dictLookup_cons_self]

theorem compute_geometry_cached_repeat {Mol Geom : Type} (env : ChemEnv Mol Geom)
    (gm : List (String × (String × Bool))) (smiles : String)
    (r : Option Geom × Bool) (gm2 : List (String × (String × Bool)))
    (h : Descriptor.compute_geometry_cached env gm smiles = .ok (r, gm2)) :
    Descriptor.compute_geometry_cached env gm2 smiles = .ok (r, gm2) := by
  unfold Descriptor.compute_geometry_cached at h ⊢
  split at h
  · cases h
  · rename_i mol hmol
    have hrep := memoCallF_repeat env.geomFun gm (env.molToSmiles mol)
    split at h
    · rename_i gm' hmc
      rw [hmc] at hrep
      cases h
      simp only [hmol, hrep]
    · rename_i xyz success gm' hmc
      rw [hmc] at hrep
      cases success
      · simp only [Bool.false_eq_true, if_false] at h
        cases h
        simp only [hmol, hrep, Bool.false_eq_true, if_false]
      · simp only [if_true] at h
        cases hread : env.readAse xyz with
        | some atoms =>
          rw [hread] at h
          cases h
          simp only [hmol, hrep, if_true, hread]
        | none =>
          rw [hread] at h
          cases h
          simp only [hmol, hrep, if_true, hread]

theorem CM_transform_row_cached_repeat {Mol Geom : Type} (env : ChemEnv Mol Geom)
    (cm : CMBuilder Geom) (n_atoms_max : Nat) (MM_program : String)
    (gm : List (String × (String × Bool))) (dm : List (CMDescKey × (Vec × Bool)))
    (smiles : String) (r : Vec × Bool) (gm2 : List (String × (String × Bool)))
    (dm2 : List (CMDescKey × (Vec × Bool)))
    (h : CoulombMatrixDesc.transform_row_cached env cm n_atoms_max MM_program
        gm dm smiles = .ok (r, gm2, dm2)) :
    CoulombMatrixDesc.transform_row_cached env cm n_atoms_max MM_program
      gm2 dm2 smiles = .ok (r, gm2, dm2) := by
  unfold CoulombMatrixDesc.transform_row_cached at h ⊢
  split at h
  · cases h
  · rename_i ase_mol ase_success gm' hgeo
    have hgeo2 := compute_geometry_cached_repeat env gm smiles _ _ hgeo
    cases ase_success
    · simp only [Bool.false_eq_true, if_false] at h
      cases h
      simp only [hgeo2, Bool.false_eq_true, if_false]
    · simp only [if_true] at h
      cases h
      simp only [hgeo2, if_true,
        memoCallAt_repeat dm (CoulombMatrixDesc.desc_cache_key n_atoms_max
          MM_program ase_mol smiles) (fun _ => CM_compute_from_ASE cm ase_mol)
          (fun _ => CM_compute_from_ASE cm ase_mol)]

theorem SOAP_transform_row_cached_repeat {Mol Geom : Type} (env : ChemEnv Mol Geom)
    (soap : SOAPBuilder Geom) (cfg : SOAPCfg) (MM_program : String)
    (gm : List (String × (String × Bool))) (dm : List (SOAPDescKey × (Vec × Bool)))
    (smiles : String) (r : Vec × Bool) (gm2 : List (String × (String × Bool)))
    (dm2 : List (SOAPDescKey × (Vec × Bool)))
    (h : SOAPDesc.transform_row_cached env soap cfg MM_program gm dm smiles =
        .ok (r, gm2, dm2)) :
    SOAPDesc.transform_row_cached env soap cfg MM_program gm2 dm2 smiles =
      .ok (r, gm2, dm2) := by
  unfold SOAPDesc.transform_row_cached at h ⊢
  split at h
  · cases h
  · rename_i ase_mol ase_success gm' hgeo
    have hgeo2 := compute_geometry_cached_repeat env gm smiles _ _ hgeo
    cases ase_success
    · simp only [Bool.false_eq_true, if_false] at h
      cases h
      simp only [hgeo2, Bool.false_eq_true, if_false]
    · simp only [if_true] at h
      have hrep := memoCallAt_repeat dm
        (SOAPDesc.desc_cache_key cfg MM_program ase_mol smiles)
        (fun _ => SOAP_compute_from_ASE soap ase_mol)
        (fun _ => SOAP_compute_from_ASE soap ase_mol)
      split at h
      · rename_i padded hpad
        cases h
        simp only [hgeo2, if_true, hrep, hpad]
      · cases h

theorem MBTR_transform_row_cached_repeat {Mol Geom : Type} (env : ChemEnv Mol Geom)
    (mbtr : MBTRBuilder Geom) (cfg : MBTRCfg) (MM_program : String)
    (gm : List (String × (String × Bool))) (dm : List (MBTRDescKey × (Vec × Bool)))
    (smiles : String) (r : Vec × Bool) (gm2 : List (String × (String × Bool)))
    (dm2 : List (MBTRDescKey × (Vec × Bool)))
    (h : MBTRDesc.transform_row_cached env mbtr cfg MM_program gm dm smiles =
        .ok (r, gm2, dm2)) :
    MBTRDesc.transform_row_cached env mbtr cfg MM_program gm2 dm2 smiles =
      .ok (r, gm2, dm2) := by
  unfold MBTRDesc.transform_row_cached at h ⊢
  split at h
  · cases h
  · rename_i ase_mol ase_success gm' hgeo
    have hgeo2 := compute_geometry_cached_repeat env gm smiles _ _ hgeo
    cases ase_success
    · simp only [Bool.false_eq_true, if_false] at h
      cases h
      simp only [hgeo2, Bool.false_eq_true, if_false]
    · simp only [if_true] at h
      cases h
      simp only [hgeo2, if_true,
        memoCallAt_repeat dm (MBTRDesc.desc_cache_key cfg MM_program ase_mol smiles)
          (fun _ => MBTR_compute_from_ASE mbtr ase_mol)
          (fun _ => MBTR_compute_from_ASE mbtr ase_mol)]

/-!
## Claim C9
-/

/-- C9 counterexample: the Random-Gaussian variant is NOT idempotent —
`transform_row` draws fresh samples from the RNG stream on every call, so
two consecutive calls on the same SMILES-independent input return different
vectors (`[0]` then `[1]` under the concrete stream `natSampler`). -/
theorem C9_counterexample_random_not_idempotent :
    (RandomGaussianVectorDesc.transform_row 0 1 1 natSampler 0).1.1 = [(0 : ℚ)] ∧
      (RandomGaussianVectorDesc.transform_row 0 1 1 natSampler
          ((RandomGaussianVectorDesc.transform_row 0 1 1 natSampler 0).2)).1.1 =
        [(1 : ℚ)] ∧
      decide (([(0 : ℚ)] : Vec) = [(1 : ℚ)]) = false := by
  refine ⟨by decide, by decide, by decide⟩

/-- C9 (amended): for the cache-backed geometry descriptors (Coulomb-Matrix,
SOAP, MBTR), computing the same SMILES twice with the caches threaded
through (a warm cache on the second run) returns the identical
(vector, success) result and leaves both cache stores unchanged; the
Random-Gaussian variant is excluded since it draws fresh samples per call,
and the shingles variant's `transform_row` returns `None` on every call. -/
theorem C9_warm_cache_idempotent :
    (∀ (Mol Geom : Type) (env : ChemEnv Mol Geom) (cm : CMBuilder Geom)
        (n_atoms_max : Nat) (MM_program : String)
        (gm : List (String × (String × Bool))) (dm : List (CMDescKey × (Vec × Bool)))
        (smiles : String) (r : Vec × Bool) (gm2 : List (String × (String × Bool)))
        (dm2 : List (CMDescKey × (Vec × Bool))),
        CoulombMatrixDesc.transform_row_cached env cm n_atoms_max MM_program
            gm dm smiles = .ok (r, gm2, dm2) →
        CoulombMatrixDesc.transform_row_cached env cm n_atoms_max MM_program
            gm2 dm2 smiles = .ok (r, gm2, dm2)) ∧
    (∀ (Mol Geom : Type) (env : ChemEnv Mol Geom) (soap : SOAPBuilder Geom)
        (cfg : SOAPCfg) (MM_program : String)
        (gm : List (String × (String × Bool))) (dm : List (SOAPDescKey × (Vec × Bool)))
        (smiles : String) (r : Vec × Bool) (gm2 : List (String × (String × Bool)))
        (dm2 : List (SOAPDescKey × (Vec × Bool))),
        SOAPDesc.transform_row_cached env soap cfg MM_program gm dm smiles =
            .ok (r, gm2, dm2) →
        SOAPDesc.transform_row_cached env soap cfg MM_program gm2 dm2 smiles =
            .ok (r, gm2, dm2)) ∧
    (∀ (Mol Geom : Type) (env : ChemEnv Mol Geom) (mbtr : MBTRBuilder Geom)
        (cfg : MBTRCfg) (MM_program : String)
        (gm : List (String × (String × Bool))) (dm : List (MBTRDescKey × (Vec × Bool)))
        (smiles : String) (r : Vec × Bool) (gm2 : List (String × (String × Bool)))
        (dm2 : List (MBTRDescKey × (Vec × Bool))),
        MBTRDesc.transform_row_cached env mbtr cfg MM_program gm dm smiles =
            .ok (r, gm2, dm2) →
        MBTRDesc.transform_row_cached env mbtr cfg MM_program gm2 dm2 smiles =
            .ok (r, gm2, dm2)) ∧
    (∀ smiles : String,
        ShinglesVectDesc.transform_row smiles = ShinglesVectDesc.transform_row smiles) := by
  refine ⟨?_, ?_, ?_, fun _ => rfl⟩
  · intro Mol Geom env cm n_atoms_max MM_program gm dm smiles r gm2 dm2 h
    exact CM_transform_row_cached_repeat env cm n_atoms_max MM_program gm dm
      smiles r gm2 dm2 h
  · intro Mol Geom env soap cfg MM_program gm dm smiles r gm2 dm2 h
    exact SOAP_transform_row_cached_repeat env soap cfg MM_program gm dm
      smiles r gm2 dm2 h
  · intro Mol Geom env mbtr cfg MM_program gm dm smiles r gm2 dm2 h
    exact MBTR_transform_row_cached_repeat env mbtr cfg MM_program gm dm
      smiles r gm2 dm2 h

/-- Witness for C9 at a concrete input: a warm second Coulomb-Matrix run on
the SMILES "C" returns the first run's vector and leaves both caches as
they were. -/
theorem C9_warm_cache_idempotent_witness :
    CoulombMatrixDesc.transform_row_cached okEnv
        (⟨2, fun _ => some [(5 : ℚ), 6]⟩ : CMBuilder String) 100 "obabel_mmff94"
        [("C", ("xyz", true))]
        [(⟨"C", 100, "obabel_mmff94_xyz"⟩, ([(5 : ℚ), 6], true))] "C" =
      .ok (([(5 : ℚ), 6], true), [("C", ("xyz", true))],
        [(⟨"C", 100, "obabel_mmff94_xyz"⟩, ([(5 : ℚ), 6], true))]) := by
  exact C9_warm_cache_idempotent.1 String String okEnv
    ⟨2, fun _ => some [(5 : ℚ), 6]⟩ 100 "obabel_mmff94" [] [] "C"
    ([(5 : ℚ), 6], true) [("C", ("xyz", true))]
    [(⟨"C", 100, "obabel_mmff94_xyz"⟩, ([(5 : ℚ), 6], true))] rfl

/-!
## Claim C10
-/

/-- C10: whenever `ShinglesVectDesc.transform` returns, its success vector
is `np.full((len(X),), True)` — all `True`, of length `len(X)` — so a
shingle-extraction failure is never reflected as `success = false` (it
raises instead, aborting the call). -/
theorem C10_shingles_successes_all_true
    (extract : String → Option (List String)) (vect_size : Nat)
    (X : List String) (M : List Vec) (S : List Bool) (s s2 : ShinglesState)
    (h : ShinglesVectDesc.transform extract vect_size X s = .ok ((M, S), s2)) :
    S = List.replicate X.length true := by
  unfold ShinglesVectDesc.transform at h
  split at h
  · cases h
  · rename_i rows s3 hg
    have h' := h
    simp only [Except.ok.injEq, Prod.mk.injEq] at h'
    exact h'.1.2.symm

/-- Witness for C10 at a concrete input: a one-element batch whose shingle
extraction returns no shingles. -/
theorem C10_shingles_successes_all_true_witness :
    [true] = List.replicate (["C"] : List String).length true := by
  exact C10_shingles_successes_all_true (fun _ => some []) 3 ["C"]
    [npZeros 3] [true] ⟨[], 0⟩ ⟨[], 0⟩ rfl

end ChemDesc
